import Mathlib

/-!
Shallow embedding of the browser-tool service (src/app/browser_tool.py and
src/app/main.py): session state, the SearXNG-backed web search, navigation,
content extraction, summarization, the FastAPI per-request lifecycle and the
unified action dispatcher.  External I/O (the driver, the HTTP responses the
page sees, the HTML soup, the Llama model) is abstracted into an `Env` of
oracles; everything the Python source itself computes is translated directly.
-/

namespace BT

/-- State of an external handle owned by a `BrowserTool` session.  A Python
field holds `none` until the object is created; once created it is `running`,
and after the library-level close/stop it is `stopped` (the source never
resets the field itself to `None`).  Closing an already-closed Playwright
browser, or stopping a stopped driver, is a no-op in the library, so
`stopped` maps to `stopped`. -/
inductive HandleState
  | running
  | stopped
deriving DecidableEq

/-- Process-wide configuration read from the environment: `SEARXNG_URL`
(browser_tool.py line 39) and whether the `LLM` variable is set to an
existing model file (lines 20-24). -/
structure Config where
  searxngUrl : Option String
  llmConfigured : Bool
deriving DecidableEq

/-- The mutable state of one `BrowserTool` instance: the `playwright`,
`browser` and `page` fields set in `__init__` and `_setup_browser`, and
whether `self.llm` holds a loaded model. -/
structure BrowserTool where
  playwright : Option HandleState
  browser : Option HandleState
  page : Option HandleState
  llm : Bool
deriving DecidableEq

/-- `BrowserTool.__init__` (browser_tool.py lines 15-24): all three handles
start as `None`; the Llama model is loaded exactly when the `LLM` path is
configured and exists.  Construction itself never fails. -/
def BrowserTool.init (cfg : Config) : BrowserTool :=
  { playwright := none, browser := none, page := none, llm := cfg.llmConfigured }

/-- Observable lifecycle events of one request: construction of the tool by
the `get_browser_tool` dependency, the three acquisition steps of
`_setup_browser`, each `page.goto`, and the `finally: await browser.close()`
call of the dependency. -/
inductive Ev
  | createTool
  | startPlaywright
  | launchBrowser
  | newPage
  | gotoUrl (url : String)
  | closeTool
deriving DecidableEq

/-- `_setup_browser` (lines 26-32): start the driver, launch the browser and
open a page, each only when its field is still `None`. -/
def setup_browser (t : BrowserTool) : BrowserTool :=
  let t1 := if t.playwright = none then { t with playwright := some .running } else t
  let t2 := if t1.browser = none then { t1 with browser := some .running } else t1
  if t2.page = none then { t2 with page := some .running } else t2

/-- The acquisition events a `_setup_browser` call emits from state `t`. -/
def setup_events (t : BrowserTool) : List Ev :=
  (if t.playwright = none then [Ev.startPlaywright] else []) ++
    (if t.browser = none then [Ev.launchBrowser] else []) ++
      (if t.page = none then [Ev.newPage] else [])

/-- First half of `close` (line 127-128): `if self.browser: await
self.browser.close()`.  Closing a Playwright browser closes the pages it
owns, so the page handle is released in the same step. -/
def close_step1 (t : BrowserTool) : BrowserTool :=
  if t.browser.isSome then
    { t with browser := some .stopped, page := t.page.map fun _ => .stopped }
  else t

/-- Second half of `close` (line 129-130): `if self.playwright: await
self.playwright.stop()`. -/
def close_step2 (t : BrowserTool) : BrowserTool :=
  if t.playwright.isSome then { t with playwright := some .stopped } else t

/-- `close` (lines 126-130): the browser-close step, then the driver-stop
step. -/
def close (t : BrowserTool) : BrowserTool := close_step2 (close_step1 t)

/-- One raw entry of the SearXNG JSON `results` array, after the
`result.get(key, '')` defaulting of lines 67-69. -/
structure RawResult where
  title : String
  url : String
  content : String
deriving DecidableEq

/-- The parsed JSON body: `data.get('results', [])` (line 64) already
applied, so a missing `results` key is the empty list. -/
structure SearxData where
  results : List RawResult
deriving DecidableEq

/-- What the rendered page body yields in lines 52-61: either no `<pre>` tag,
or a `<pre>` tag whose text `json.loads` parses (`some`) or does not parse
(`none`; the raised `ValueError` is swallowed by the `except` of line 85). -/
inductive PageBody
  | noPre
  | pre (parsed : Option SearxData)
deriving DecidableEq

/-- Outcome of `await self.page.goto(url)`: the call raised, returned `None`,
or returned a response with a status code and a page body. -/
inductive GotoOutcome
  | raised (msg : String)
  | noResponse
  | response (status : Nat) (body : PageBody)
deriving DecidableEq

/-- Outcome of one Llama invocation (lines 117-124): generated text, or a
raised model error. -/
inductive LlmOutcome
  | ok (text : String)
  | raised (msg : String)
deriving DecidableEq

/-- A result node of a rendered search page, for the spec-modelled DOM
fallback: each sub-element may be missing. -/
structure DomNode where
  title : Option String
  url : Option String
  snippet : Option String
deriving DecidableEq

/-- The external world one request observes: what `page.goto` returns per
URL, whether `wait_for_selector` finds a selector within its timeout, the
visible text `soup.get_text(separator=' ', strip=True)` yields for the
current page, and the Llama model's behaviour.  `domWait`/`domNodes` belong
to the spec-modelled DOM fallback only (see `dom_fallback_search`). -/
structure Env where
  goto : String → GotoOutcome
  selectorAppears : String → Int → Bool
  visibleText : String
  llmGen : String → Int → LlmOutcome
  domWait : Bool
  domNodes : List DomNode

/-- An uppercase hexadecimal digit, as `urllib.parse.quote_plus` writes. -/
def hexUpper (n : Nat) : Char :=
  if n < 10 then Char.ofNat (48 + n) else Char.ofNat (55 + n)

/-- `urllib.parse.quote_plus` on one UTF-8 byte: ASCII alphanumerics and
`_.-~` pass through, a space becomes `+`, everything else is
percent-encoded. -/
def quote_plus_byte (b : UInt8) : String :=
  let n := b.toNat
  if (65 ≤ n ∧ n ≤ 90) ∨ (97 ≤ n ∧ n ≤ 122) ∨ (48 ≤ n ∧ n ≤ 57) ∨
      n = 45 ∨ n = 46 ∨ n = 95 ∨ n = 126 then
    String.singleton (Char.ofNat n)
  else if n = 32 then "+"
  else "%" ++ String.singleton (hexUpper (n / 16)) ++ String.singleton (hexUpper (n % 16))

/-- `urllib.parse.quote_plus` (browser_tool.py line 40): encode as UTF-8 and
quote byte by byte. -/
def quote_plus (s : String) : String :=
  String.join (s.toUTF8.toList.map quote_plus_byte)

/-- Lines 39-41: the search URL, with the `SEARXNG_URL` default
`http://192.168.77.8:8888` and the structured `format=json` query. -/
def search_url (cfg : Config) (query : String) : String :=
  (cfg.searxngUrl.getD "http://192.168.77.8:8888") ++ "/search?q=" ++
    quote_plus query ++ "&format=json"

/-- Python `l[:n]` for an `int` bound: for `n ≥ 0` the first `n` elements,
for `n < 0` all but the last `-n`. -/
def pySliceTo {α : Type} (l : List α) (n : Int) : List α :=
  if 0 ≤ n then l.take n.toNat else l.take (l.length - (-n).toNat)

/-- The emitted search record of lines 72-76. -/
structure SearchResult where
  title : String
  url : String
  snippet : String
deriving DecidableEq

/-- Lines 63-76: slice the raw `results` to `max_results`, keep an entry only
when its title and url are truthy (non-empty), and rename `content` to
`snippet`. -/
def parse_results (data : SearxData) (max_results : Int) : List SearchResult :=
  (pySliceTo data.results max_results).filterMap fun r =>
    if r.title ≠ "" ∧ r.url ≠ "" then some ⟨r.title, r.url, r.content⟩ else none

/-- The list `web_search` returns (lines 46-87): every transport error,
missing response, non-200 status, missing `<pre>` tag or JSON parse failure
collapses to `[]`; only a 200 response with parsable JSON reaches
`parse_results`. -/
def web_search_result (cfg : Config) (env : Env) (query : String)
    (max_results : Int) : List SearchResult :=
  match env.goto (search_url cfg query) with
  | .raised _ => []
  | .noResponse => []
  | .response status body =>
    if status = 200 then
      match body with
      | .noPre => []
      | .pre none => []
      | .pre (some data) => parse_results data max_results
    else []

/-- `web_search` (lines 34-87): `_setup_browser`, then navigate the page to
the structured SearXNG endpoint and compute `web_search_result`.  The
function is total: the `try/except` of lines 46-87 turns every failure into
the empty list, never into a raised exception.  Every branch leaves the
session in the same state `setup_browser t`. -/
def web_search (cfg : Config) (env : Env) (query : String) (max_results : Int)
    (t : BrowserTool) : List SearchResult × BrowserTool × List Ev :=
  (web_search_result cfg env query max_results, setup_browser t,
    setup_events t ++ [Ev.gotoUrl (search_url cfg query)])

/-- Python truthiness of an `Optional[str]` field: `None` and the empty
string are falsy, every other string is truthy. -/
def pyTruthyStr : Option String → Bool
  | none => false
  | some s => s ≠ ""

/-- The outcome `navigate` raises or returns (lines 89-97): `page.goto(url)`
propagates a driver exception; then, when `wait_for_element` is truthy, a
wait failure raises `Element '<sel>' not found on page`. -/
def navigate_result (env : Env) (url : String) (wait_for_element : Option String)
    (wait_time : Int) : Except String Unit :=
  match env.goto url with
  | .raised msg => .error msg
  | _ =>
    if pyTruthyStr wait_for_element then
      if env.selectorAppears (wait_for_element.getD "") wait_time then .ok ()
      else .error ("Element '" ++ wait_for_element.getD "" ++ "' not found on page")
    else .ok ()

/-- `navigate` (lines 89-97): `_setup_browser`, `page.goto`, optional
element wait.  Every branch leaves the state at `setup_browser t`. -/
def navigate (env : Env) (t : BrowserTool) (url : String)
    (wait_for_element : Option String) (wait_time : Int) :
    Except String Unit × BrowserTool × List Ev :=
  (navigate_result env url wait_for_element wait_time, setup_browser t,
    setup_events t ++ [Ev.gotoUrl url])

/-- Python whitespace as `str.split()` sees it in ASCII: space, tab, newline,
carriage return, vertical tab, form feed. -/
def isPySpace (c : Char) : Bool :=
  c == ' ' || c == '\t' || c == '\n' || c == '\r' ||
    c == Char.ofNat 11 || c == Char.ofNat 12

/-- Worker for Python `str.split()` with no separator: maximal runs of
non-whitespace characters, with `acc` the reversed current word. -/
def splitWordsAux : List Char → List Char → List (List Char)
  | [], acc => if acc = [] then [] else [acc.reverse]
  | c :: cs, acc =>
    if isPySpace c then
      if acc = [] then splitWordsAux cs []
      else acc.reverse :: splitWordsAux cs []
    else splitWordsAux cs (c :: acc)

/-- Python `text.split()` (line 110). -/
def pySplit (s : String) : List (List Char) := splitWordsAux s.data []

/-- Python `' '.join(words)` at the character level. -/
def joinWords : List (List Char) → List Char
  | [] => []
  | [w] => w
  | w :: ws => w ++ ' ' :: joinWords ws

/-- Line 110, the whitespace normalization of `extract_content`:
`' '.join(text.split())` — collapse every whitespace run to one space and
trim both ends. -/
def extract_normalize (s : String) : String := String.mk (joinWords (pySplit s))

/-- `extract_content` (lines 99-110): when `url` is truthy, `navigate` first
(propagating its exception); then `_setup_browser`, fetch the page, strip
script/style nodes (the HTML pipeline up to `soup.get_text` is the
environment's `visibleText`), and normalize whitespace. -/
def extract_content (env : Env) (t : BrowserTool) (url : Option String)
    (wait_for_element : Option String) : Except String String × BrowserTool × List Ev :=
  if pyTruthyStr url then
    let nav := navigate env t (url.getD "") wait_for_element 10
    match nav.1 with
    | .error msg => (.error msg, nav.2.1, nav.2.2)
    | .ok _ =>
      (.ok (extract_normalize env.visibleText), setup_browser nav.2.1,
        nav.2.2 ++ setup_events nav.2.1)
  else
    (.ok (extract_normalize env.visibleText), setup_browser t, setup_events t)

/-- The prompt template of line 116. -/
def summarize_prompt (text : String) : String :=
  "Summarize the following text concisely:\n\n" ++ text ++ "\n\nSummary:"

/-- `summarize` (lines 112-124): raise `LLM not configured. Set LLM
environment variable.` when `self.llm` is falsy — before any model call —
otherwise invoke the model and return the generated text stripped.  The
session state is untouched and no browser is started. -/
def summarize (env : Env) (t : BrowserTool) (text : String) (max_tokens : Int) :
    Except String String :=
  if t.llm = false then .error "LLM not configured. Set LLM environment variable."
  else
    match env.llmGen (summarize_prompt text) max_tokens with
    | .raised msg => .error msg
    | .ok out => .ok out.trim

/-- An HTTP error response, as `HTTPException(status_code, detail)`. -/
structure HTTPError where
  status : Nat
  detail : String
deriving DecidableEq

/-- The request body of the unified `/browser_tool` endpoint
(main.py lines 30-36). -/
structure BrowserToolRequest where
  action : String
  query : Option String
  url : Option String
  text : Option String
  max_results : Option Int
  max_tokens : Option Int
deriving DecidableEq

/-- The success payload of the unified endpoint, one shape per action. -/
inductive ToolPayload
  | searchResults (results : List SearchResult)
  | pageContent (url : String) (content : String)
  | summary (s : String)
deriving DecidableEq

/-- Python `x or d` for an `Optional[int]`: `None` and `0` are falsy and give
the default. -/
def pyIntOr (o : Option Int) (d : Int) : Int :=
  match o with
  | none => d
  | some v => if v = 0 then d else v

/-- The body of the `/browser_tool` endpoint (main.py lines 110-149): the
action dispatch with its truthiness validations, each 400 raised before any
browser work, the three operations, and the `except Exception` translation
of operation failures to 500 (raised `HTTPException`s pass through
unchanged). -/
def browser_tool_dispatch (cfg : Config) (env : Env) (req : BrowserToolRequest)
    (t : BrowserTool) : Except HTTPError ToolPayload × BrowserTool × List Ev :=
  if req.action = "search" then
    if pyTruthyStr req.query = false then
      (.error ⟨400, "'query' is required for 'search' action"⟩, t, [])
    else
      let ws := web_search cfg env (req.query.getD "") (pyIntOr req.max_results 10) t
      (.ok (.searchResults ws.1), ws.2.1, ws.2.2)
  else if req.action = "get_page" then
    if pyTruthyStr req.url = false then
      (.error ⟨400, "'url' is required for 'get_page' action"⟩, t, [])
    else
      let ex := extract_content env t req.url none
      ((match ex.1 with
        | .ok content => .ok (.pageContent (req.url.getD "") content)
        | .error msg => .error ⟨500, msg⟩), ex.2.1, ex.2.2)
  else if req.action = "summarize" then
    if pyTruthyStr req.text = false then
      (.error ⟨400, "'text' is required for 'summarize' action"⟩, t, [])
    else
      ((match summarize env t (req.text.getD "") (pyIntOr req.max_tokens 200) with
        | .ok s => .ok (.summary s)
        | .error msg => .error ⟨500, msg⟩), t, [])
  else
    (.error ⟨400, "Invalid action '" ++ req.action ++
      "'. Must be one of: search, get_page, summarize"⟩, t, [])

/-- The `get_browser_tool` dependency wrapped around an endpoint body
(main.py lines 46-51): construct a fresh `BrowserTool`, yield it to the
operation, and in the `finally` block call `close()` — on the success path
and on every raising path alike. -/
def run_with_tool {α : Type} (cfg : Config)
    (op : BrowserTool → Except HTTPError α × BrowserTool × List Ev) :
    Except HTTPError α × BrowserTool × List Ev :=
  let r := op (BrowserTool.init cfg)
  (r.1, close r.2.1, Ev.createTool :: (r.2.2 ++ [Ev.closeTool]))

/-- The `/web_search` endpoint (main.py lines 53-63). -/
def web_search_handler (cfg : Config) (env : Env) (query : String)
    (max_results : Int) : Except HTTPError (List SearchResult) × BrowserTool × List Ev :=
  run_with_tool cfg fun t =>
    let ws := web_search cfg env query max_results t
    (.ok ws.1, ws.2.1, ws.2.2)

/-- The `/navigate` endpoint (main.py lines 65-75): a raised navigation
error becomes a 500. -/
def navigate_handler (cfg : Config) (env : Env) (url : String)
    (wait_for_element : Option String) (wait_time : Int) :
    Except HTTPError Unit × BrowserTool × List Ev :=
  run_with_tool cfg fun t =>
    let nav := navigate env t url wait_for_element wait_time
    ((match nav.1 with
      | .ok _ => .ok ()
      | .error msg => .error ⟨500, msg⟩), nav.2.1, nav.2.2)

/-- The `/extract_content` endpoint (main.py lines 77-87). -/
def extract_content_handler (cfg : Config) (env : Env) (url : Option String)
    (wait_for_element : Option String) :
    Except HTTPError String × BrowserTool × List Ev :=
  run_with_tool cfg fun t =>
    let ex := extract_content env t url wait_for_element
    ((match ex.1 with
      | .ok content => .ok content
      | .error msg => .error ⟨500, msg⟩), ex.2.1, ex.2.2)

/-- The `/summarize` endpoint (main.py lines 89-99). -/
def summarize_handler (cfg : Config) (env : Env) (text : String)
    (max_tokens : Int) : Except HTTPError String × BrowserTool × List Ev :=
  run_with_tool cfg fun t =>
    ((match summarize env t text max_tokens with
      | .ok s => .ok s
      | .error msg => .error ⟨500, msg⟩), t, [])

/-- The `/browser_tool` endpoint (main.py lines 110-149). -/
def browser_tool_handler (cfg : Config) (env : Env) (req : BrowserToolRequest) :
    Except HTTPError ToolPayload × BrowserTool × List Ev :=
  run_with_tool cfg fun t => browser_tool_dispatch cfg env req t

/-- Modelled from the spec: the DOM-scrape fallback search strategy of §4.2,
which is absent from src/ (the source's `web_search` only implements the
structured strategy).  Navigate the session's page to a rendered
search-results page for the query, wait up to a fixed 10-second timeout for
at least one result node to appear (`domWait`), then parse up to
`maxResults` result nodes, skipping nodes whose title/url/snippet
sub-elements are missing; on timeout the overall result is the empty
sequence. -/
def dom_fallback_search (env : Env) (_query : String) (maxResults : Int) :
    List SearchResult :=
  if env.domWait then
    (pySliceTo env.domNodes maxResults).filterMap fun nd =>
      match nd.title, nd.url, nd.snippet with
      | some ti, some u, some sn => some ⟨ti, u, sn⟩
      | _, _, _ => none
  else []

/-! ## Session-state lemmas -/

/-- The only cross-field relation a request ever creates: a page exists only
when a browser exists (`_setup_browser` creates them together, in order). -/
def sessionInv (t : BrowserTool) : Prop := t.browser = none → t.page = none

/-- Every handle of `t` has been released: nothing is left running. -/
def allReleased (t : BrowserTool) : Prop :=
  t.playwright ≠ some .running ∧ t.browser ≠ some .running ∧ t.page ≠ some .running

theorem init_sessionInv (cfg : Config) : sessionInv (BrowserTool.init cfg) :=
  fun _ => rfl

theorem setup_sessionInv (t : BrowserTool) : sessionInv (setup_browser t) := by
  rcases t with ⟨p, b, pg, l⟩
  cases p <;> cases b <;> cases pg <;> simp [setup_browser, sessionInv]

theorem allReleased_close_of_inv (t : BrowserTool) (h : sessionInv t) :
    allReleased (close t) := by
  rcases t with ⟨p, b, pg, l⟩
  cases p <;> cases b <;> cases pg <;>
    simp_all [sessionInv, close, close_step1, close_step2, allReleased]

theorem run_with_tool_eq {α : Type} (cfg : Config)
    (op : BrowserTool → Except HTTPError α × BrowserTool × List Ev) :
    run_with_tool cfg op =
      ((op (BrowserTool.init cfg)).1, close (op (BrowserTool.init cfg)).2.1,
        Ev.createTool :: ((op (BrowserTool.init cfg)).2.2 ++ [Ev.closeTool])) := rfl

theorem trace_last_closeTool (x : Ev) (l : List Ev) :
    (x :: (l ++ [Ev.closeTool])).getLast? = some Ev.closeTool := by
  rw [← List.cons_append, List.getLast?_append_cons]
  rfl

/-- The state `extract_content` leaves behind: `_setup_browser` applied once
(no navigation, or navigation that raised) or twice (navigation and then the
explicit `_setup_browser` call of line 103). -/
theorem extract_content_state (env : Env) (t : BrowserTool) (url wfe : Option String) :
    (extract_content env t url wfe).2.1 = setup_browser t ∨
      (extract_content env t url wfe).2.1 = setup_browser (setup_browser t) := by
  unfold extract_content
  cases hu : pyTruthyStr url
  · simp [hu]
  · simp only [hu]
    cases hn : navigate_result env (url.getD "") wfe 10 <;> simp [navigate, hn]

theorem dispatch_sessionInv (cfg : Config) (env : Env) (req : BrowserToolRequest)
    (t : BrowserTool) (h : sessionInv t) :
    sessionInv (browser_tool_dispatch cfg env req t).2.1 := by
  unfold browser_tool_dispatch
  by_cases h1 : req.action = "search"
  · rw [if_pos h1]
    by_cases hq : pyTruthyStr req.query = false
    · rw [if_pos hq]; exact h
    · rw [if_neg hq]; exact setup_sessionInv t
  · rw [if_neg h1]
    by_cases h2 : req.action = "get_page"
    · rw [if_pos h2]
      by_cases hu : pyTruthyStr req.url = false
      · rw [if_pos hu]; exact h
      · rw [if_neg hu]
        rcases extract_content_state env t req.url none with hs | hs
        · exact hs.symm ▸ setup_sessionInv t
        · exact hs.symm ▸ setup_sessionInv (setup_browser t)
    · rw [if_neg h2]
      by_cases h3 : req.action = "summarize"
      · rw [if_pos h3]
        by_cases hx : pyTruthyStr req.text = false
        · rw [if_pos hx]; exact h
        · rw [if_neg hx]; exact h
      · rw [if_neg h3]; exact h

/-- What C1 asks of one finished request: the trace ends with the `close()`
event, and no session handle is left running. -/
def closedRun {α : Type} (r : Except HTTPError α × BrowserTool × List Ev) : Prop :=
  r.2.2.getLast? = some Ev.closeTool ∧ allReleased r.2.1

theorem run_with_tool_closedRun {α : Type} (cfg : Config)
    (op : BrowserTool → Except HTTPError α × BrowserTool × List Ev)
    (h : sessionInv (op (BrowserTool.init cfg)).2.1) :
    closedRun (run_with_tool cfg op) :=
  ⟨trace_last_closeTool _ _, allReleased_close_of_inv _ h⟩

/-! ## The claims -/

/-- C1: for every inbound API call that reaches one of the five operation
handlers (`/web_search`, `/navigate`, `/extract_content`, `/summarize`,
`/browser_tool`), the `get_browser_tool` dependency invokes the session's
`close()` after the operation completes, on every exit path — whether the
operation returns a result or raises: the request's event trace always ends
with the close event, and no handle of the final session state is left
running.  The environment and request are universally quantified, so both
the success branches and every raising branch are covered. -/
theorem handlers_invoke_close_on_every_path :
    ∀ (cfg : Config) (env : Env) (q : String) (n : Int) (url : String)
      (wfe : Option String) (wt : Int) (u2 w2 : Option String) (text : String)
      (mt : Int) (req : BrowserToolRequest),
      closedRun (web_search_handler cfg env q n) ∧
        closedRun (navigate_handler cfg env url wfe wt) ∧
          closedRun (extract_content_handler cfg env u2 w2) ∧
            closedRun (summarize_handler cfg env text mt) ∧
              closedRun (browser_tool_handler cfg env req) := by
  intro cfg env q n url wfe wt u2 w2 text mt req
  refine ⟨?_, ?_, ?_, ?_, ?_⟩
  · exact run_with_tool_closedRun cfg _ (setup_sessionInv _)
  · exact run_with_tool_closedRun cfg _ (setup_sessionInv _)
  · apply run_with_tool_closedRun
    rcases extract_content_state env (BrowserTool.init cfg) u2 w2 with hs | hs
    · exact hs.symm ▸ setup_sessionInv (BrowserTool.init cfg)
    · exact hs.symm ▸ setup_sessionInv (setup_browser (BrowserTool.init cfg))
  · exact run_with_tool_closedRun cfg _ (init_sessionInv cfg)
  · exact run_with_tool_closedRun cfg _
      (dispatch_sessionInv cfg env req _ (init_sessionInv cfg))

/-- A fully initialized ("ready") session: driver, browser and page all
running, as `_setup_browser` leaves them. -/
def ready (t : BrowserTool) : Prop :=
  t.playwright = some .running ∧ t.browser = some .running ∧ t.page = some .running

/-- C4: `close()` is a no-op on a never-initialized session, is idempotent
(a second call changes nothing), and releases the handles in
reverse-acquisition order: on a ready session the first step (the
`browser.close()` of line 128, which releases the page the browser owns
together with the browser) leaves the driver still running, and only the
second step (the `playwright.stop()` of line 130) stops the driver —
acquisition order was driver, browser, page. -/
theorem close_noop_idempotent_reverse_order :
    (∀ cfg : Config, close (BrowserTool.init cfg) = BrowserTool.init cfg) ∧
      (∀ t : BrowserTool, close (close t) = close t) ∧
        (∀ t : BrowserTool, ready t →
          (close_step1 t).page = some .stopped ∧
            (close_step1 t).browser = some .stopped ∧
              (close_step1 t).playwright = some .running ∧
                (close_step2 (close_step1 t)).playwright = some .stopped) := by
  refine ⟨fun cfg => rfl, ?_, ?_⟩
  · rintro ⟨p, b, pg, l⟩
    cases p <;> cases b <;> cases pg <;> rfl
  · rintro ⟨p, b, pg, l⟩ ⟨h1, h2, h3⟩
    subst h1; subst h2; subst h3
    exact ⟨rfl, rfl, rfl, rfl⟩

/-- A concrete ready session for the C4 witness. -/
def readyTool : BrowserTool :=
  { playwright := some .running, browser := some .running,
    page := some .running, llm := false }

/-- Witness for C4: the reverse-order part applied at the concrete ready
session `readyTool`, its `ready` hypothesis discharged by `rfl`. -/
theorem close_noop_idempotent_reverse_order_witness :
    (close_step1 readyTool).page = some .stopped ∧
      (close_step1 readyTool).browser = some .stopped ∧
        (close_step1 readyTool).playwright = some .running ∧
          (close_step2 (close_step1 readyTool)).playwright = some .stopped :=
  close_noop_idempotent_reverse_order.2.2 readyTool ⟨rfl, rfl, rfl⟩

/-- The failure modes of C5 on the structured search call: the `goto`
raised (transport error), returned no response, returned a non-200 status,
or returned a body with no `<pre>` tag or with JSON that does not parse. -/
def searchFailureOutcome : GotoOutcome → Bool
  | .raised _ => true
  | .noResponse => true
  | .response status body =>
    status != 200 ||
      (match body with
       | .noPre => true
       | .pre none => true
       | .pre (some _) => false)

/-- C5: whenever the structured search call hits a transport error, a
missing or non-200 response, or an unparseable body, `web_search` returns
the empty list and the `/web_search` endpoint answers with the ordinary
success payload `ok []` — the failure is swallowed by the `try/except`
(lines 46-87), never raised to the caller. -/
theorem web_search_degrades_to_empty (cfg : Config) (env : Env) (q : String)
    (n : Int) (t : BrowserTool)
    (h : searchFailureOutcome (env.goto (search_url cfg q)) = true) :
    (web_search cfg env q n t).1 = [] ∧
      (web_search_handler cfg env q n).1 = .ok [] := by
  have hres : web_search_result cfg env q n = [] := by
    unfold web_search_result
    cases hg : env.goto (search_url cfg q) with
    | raised msg => rfl
    | noResponse => rfl
    | response status body =>
      rw [hg] at h
      by_cases hs : status = 200
      · subst hs
        cases body with
        | noPre => simp
        | pre parsed =>
          cases parsed with
          | none => simp
          | some data => simp [searchFailureOutcome] at h
      · simp [hs]
  refine ⟨hres, ?_⟩
  show Except.ok (web_search_result cfg env q n) = Except.ok []
  rw [hres]

/-- A concrete environment in which the search transport raises. -/
def envRaising : Env :=
  { goto := fun _ => .raised "net::ERR_CONNECTION_REFUSED"
    selectorAppears := fun _ _ => false
    visibleText := ""
    llmGen := fun _ _ => .raised "llama error"
    domWait := false
    domNodes := [] }

/-- A concrete configuration: no SearXNG override, no model. -/
def cfgBare : Config := { searxngUrl := none, llmConfigured := false }

/-- Witness for C5 at a concrete raising environment. -/
theorem web_search_degrades_to_empty_witness :
    (web_search cfgBare envRaising "rust" 5 (BrowserTool.init cfgBare)).1 = [] ∧
      (web_search_handler cfgBare envRaising "rust" 5).1 = .ok [] :=
  web_search_degrades_to_empty cfgBare envRaising "rust" 5
    (BrowserTool.init cfgBare) rfl

/-- C7: for every query and every `maxResults ≥ 0`, `web_search` returns at
most `maxResults` results — the slice `search_results[:max_results]` of
line 66 caps the list before the title/url filter can only shrink it. -/
theorem web_search_length_le_max_results (cfg : Config) (env : Env) (q : String)
    (n : Int) (t : BrowserTool) (h : 0 ≤ n) :
    ((web_search cfg env q n t).1.length : Int) ≤ n := by
  have hlen : ∀ data : SearxData, (parse_results data n).length ≤ n.toNat := by
    intro data
    calc (parse_results data n).length
        ≤ (pySliceTo data.results n).length := List.length_filterMap_le _ _
      _ ≤ n.toNat := by
          unfold pySliceTo
          rw [if_pos h]
          exact List.length_take_le _ _
  show ((web_search_result cfg env q n).length : Int) ≤ n
  unfold web_search_result
  cases env.goto (search_url cfg q) with
  | raised msg => simpa using h
  | noResponse => simpa using h
  | response status body =>
    by_cases hs : status = 200
    · subst hs
      cases body with
      | noPre => simpa using h
      | pre parsed =>
        cases parsed with
        | none => simpa using h
        | some data =>
          simp only [if_pos rfl]
          calc ((parse_results data n).length : Int)
              ≤ (n.toNat : Int) := by exact_mod_cast hlen data
            _ = n := Int.toNat_of_nonneg h
    · dsimp only
      rw [if_neg hs]
      simpa using h

/-- A concrete environment whose search endpoint answers 200 with five
parsable results (one of them with an empty url). -/
def envFive : Env :=
  { goto := fun _ => .response 200 (.pre (some ⟨[
      ⟨"r1", "http://a", "s1"⟩, ⟨"r2", "http://b", "s2"⟩,
      ⟨"r3", "http://c", "s3"⟩, ⟨"r4", "", "s4"⟩,
      ⟨"r5", "http://e", "s5"⟩]⟩))
    selectorAppears := fun _ _ => true
    visibleText := ""
    llmGen := fun _ _ => .ok ""
    domWait := false
    domNodes := [] }

/-- Witness for C7 at `maxResults = 3` against the five-result
environment. -/
theorem web_search_length_le_max_results_witness :
    (((web_search cfgBare envFive "rust" 3 (BrowserTool.init cfgBare)).1.length : Int)
      ≤ 3) :=
  web_search_length_le_max_results cfgBare envFive "rust" 3
    (BrowserTool.init cfgBare) (by decide)

/-- C8: every `SearchResult` the structured-service strategy emits has a
non-empty title and a non-empty url — the `if title and url` filter of
line 71 admits nothing else. -/
theorem web_search_results_have_title_and_url (cfg : Config) (env : Env)
    (q : String) (n : Int) (t : BrowserTool) (r : SearchResult)
    (hr : r ∈ (web_search cfg env q n t).1) : r.title ≠ "" ∧ r.url ≠ "" := by
  have hpr : ∀ data : SearxData, r ∈ parse_results data n →
      r.title ≠ "" ∧ r.url ≠ "" := by
    intro data hmem
    unfold parse_results at hmem
    rw [List.mem_filterMap] at hmem
    obtain ⟨a, -, ha⟩ := hmem
    by_cases hc : a.title ≠ "" ∧ a.url ≠ ""
    · rw [if_pos hc] at ha
      cases ha
      exact hc
    · rw [if_neg hc] at ha
      cases ha
  replace hr : r ∈ web_search_result cfg env q n := hr
  unfold web_search_result at hr
  cases hg : env.goto (search_url cfg q) with
  | raised msg => rw [hg] at hr; cases hr
  | noResponse => rw [hg] at hr; cases hr
  | response status body =>
    rw [hg] at hr
    by_cases hs : status = 200
    · subst hs
      cases body with
      | noPre => simp at hr
      | pre parsed =>
        cases parsed with
        | none => simp at hr
        | some data =>
          simp only [if_pos rfl] at hr
          exact hpr data hr
    · dsimp only at hr
      rw [if_neg hs] at hr
      cases hr

/-- Witness for C8: the first emitted result of the five-result environment
has a non-empty title and url. -/
theorem web_search_results_have_title_and_url_witness :
    (⟨"r1", "http://a", "s1"⟩ : SearchResult).title ≠ "" ∧
      (⟨"r1", "http://a", "s1"⟩ : SearchResult).url ≠ "" :=
  web_search_results_have_title_and_url cfgBare envFive "rust" 3
    (BrowserTool.init cfgBare) ⟨"r1", "http://a", "s1"⟩ (by decide)

/-- C6: with no model path configured, `BrowserTool.__init__` still succeeds
— the service starts with summarization merely disabled (`llm = false`) —
and then every `summarize` call, for every input text, token bound and model
environment, fails immediately with the configuration error of line 114.
The check is the call-time `if not self.llm` test; the quantification over
`env` shows no model is ever consulted. -/
theorem summarize_unconfigured_errors (cfg : Config) (env : Env) (text : String)
    (mt : Int) (h : cfg.llmConfigured = false) :
    summarize env (BrowserTool.init cfg) text mt =
        .error "LLM not configured. Set LLM environment variable." ∧
      BrowserTool.init cfg =
        { playwright := none, browser := none, page := none, llm := false } := by
  refine ⟨?_, ?_⟩ <;> simp [summarize, BrowserTool.init, h]

/-- Witness for C6 at the concrete model-free configuration `cfgBare`. -/
theorem summarize_unconfigured_errors_witness :
    summarize envRaising (BrowserTool.init cfgBare) "any text" 200 =
        .error "LLM not configured. Set LLM environment variable." ∧
      BrowserTool.init cfgBare =
        { playwright := none, browser := none, page := none, llm := false } :=
  summarize_unconfigured_errors cfgBare envRaising "any text" 200 rfl

/-- C10: in the `/browser_tool` dispatcher a required field that is present
but equal to the empty string is rejected exactly like a missing field — the
`if not request.query` tests of lines 123, 129 and 135 check truthiness, not
presence: for each action the dispatch outcome on the empty-string field
equals the outcome on the absent field, and is the 400 error with that
action's detail message. -/
theorem dispatcher_rejects_empty_as_missing (cfg : Config) (env : Env)
    (t : BrowserTool) (u x : Option String) (mr mt : Option Int)
    (q2 x2 : Option String) (mr2 mt2 : Option Int) (q3 u3 : Option String)
    (mr3 mt3 : Option Int) :
    (browser_tool_dispatch cfg env ⟨"search", some "", u, x, mr, mt⟩ t =
        browser_tool_dispatch cfg env ⟨"search", none, u, x, mr, mt⟩ t ∧
      (browser_tool_dispatch cfg env ⟨"search", some "", u, x, mr, mt⟩ t).1 =
        .error ⟨400, "'query' is required for 'search' action"⟩) ∧
      (browser_tool_dispatch cfg env ⟨"get_page", q2, some "", x2, mr2, mt2⟩ t =
          browser_tool_dispatch cfg env ⟨"get_page", q2, none, x2, mr2, mt2⟩ t ∧
        (browser_tool_dispatch cfg env ⟨"get_page", q2, some "", x2, mr2, mt2⟩ t).1 =
          .error ⟨400, "'url' is required for 'get_page' action"⟩) ∧
        (browser_tool_dispatch cfg env ⟨"summarize", q3, u3, some "", mr3, mt3⟩ t =
            browser_tool_dispatch cfg env ⟨"summarize", q3, u3, none, mr3, mt3⟩ t ∧
          (browser_tool_dispatch cfg env ⟨"summarize", q3, u3, some "", mr3, mt3⟩ t).1 =
            .error ⟨400, "'text' is required for 'summarize' action"⟩) :=
  ⟨⟨rfl, rfl⟩, ⟨rfl, rfl⟩, ⟨rfl, rfl⟩⟩

/-- A `/browser_tool` request with a missing required field or an action tag
outside {search, get_page, summarize}, as C3 describes invalid requests. -/
def missingFieldOrUnknown (req : BrowserToolRequest) : Bool :=
  (req.action == "search" && req.query.isNone) ||
    (req.action == "get_page" && req.url.isNone) ||
      (req.action == "summarize" && req.text.isNone) ||
        (req.action != "search" && req.action != "get_page" &&
          req.action != "summarize")

/-- C3 as stated: every invalid `/browser_tool` request is answered with a
400 client error, and the rejection is detected and reported before any
session is created — so no session-creation event can occur in the
request's trace — and before any automation work begins. -/
def rejectionPrecedesSessionCreation : Prop :=
  ∀ (cfg : Config) (env : Env) (req : BrowserToolRequest),
    missingFieldOrUnknown req = true →
      (∃ d, (browser_tool_handler cfg env req).1 = .error ⟨400, d⟩) ∧
        Ev.createTool ∉ (browser_tool_handler cfg env req).2.2

/-- The unknown-action request used to refute C3 as stated. -/
def reqBogus : BrowserToolRequest :=
  { action := "bogus", query := none, url := none, text := none,
    max_results := none, max_tokens := none }

/-- Counterexample to C3 as stated: on the concrete invalid request
`reqBogus` the dispatcher does answer 400, but the `get_browser_tool`
dependency has already constructed the request-scoped session object before
validation ran — the trace contains the creation event, so the rejection is
not reported before the session is created. -/
theorem rejection_before_session_counterexample :
    ¬ rejectionPrecedesSessionCreation := by
  intro h
  obtain ⟨-, h2⟩ := h cfgBare envRaising reqBogus rfl
  exact h2 (List.mem_cons_self _ _)

/-- C3 amended: an invalid `/browser_tool` request (missing required field
or unknown action) is rejected with a 400 client error, and the rejection
happens before any automation work — the request's full trace is exactly
session creation followed by session close: the browser is never launched,
no page is opened, no navigation occurs.  The session object itself,
however, is created by the request-scoped dependency before validation runs
(and closed afterwards). -/
theorem invalid_request_rejected_before_automation (cfg : Config) (env : Env)
    (req : BrowserToolRequest) (h : missingFieldOrUnknown req = true) :
    (∃ d, (browser_tool_handler cfg env req).1 = .error ⟨400, d⟩) ∧
      (browser_tool_handler cfg env req).2.2 = [Ev.createTool, Ev.closeTool] := by
  unfold missingFieldOrUnknown at h
  simp only [Bool.or_eq_true, Bool.and_eq_true, beq_iff_eq, bne_iff_ne,
    Option.isNone_iff_eq_none] at h
  rcases h with ((⟨h1, h2⟩ | ⟨h1, h2⟩) | ⟨h1, h2⟩) | ⟨⟨h1, h2⟩, h3⟩
  · exact ⟨⟨"'query' is required for 'search' action", by
      simp [browser_tool_handler, run_with_tool, browser_tool_dispatch, h1, h2,
        pyTruthyStr]⟩, by
      simp [browser_tool_handler, run_with_tool, browser_tool_dispatch, h1, h2,
        pyTruthyStr]⟩
  · exact ⟨⟨"'url' is required for 'get_page' action", by
      simp [browser_tool_handler, run_with_tool, browser_tool_dispatch, h1, h2,
        pyTruthyStr]⟩, by
      simp [browser_tool_handler, run_with_tool, browser_tool_dispatch, h1, h2,
        pyTruthyStr]⟩
  · exact ⟨⟨"'text' is required for 'summarize' action", by
      simp [browser_tool_handler, run_with_tool, browser_tool_dispatch, h1, h2,
        pyTruthyStr]⟩, by
      simp [browser_tool_handler, run_with_tool, browser_tool_dispatch, h1, h2,
        pyTruthyStr]⟩
  · exact ⟨⟨"Invalid action '" ++ req.action ++
      "'. Must be one of: search, get_page, summarize", by
      simp [browser_tool_handler, run_with_tool, browser_tool_dispatch, h1, h2, h3]⟩, by
      simp [browser_tool_handler, run_with_tool, browser_tool_dispatch, h1, h2, h3]⟩

/-- Witness for the amended C3 at the concrete unknown-action request. -/
theorem invalid_request_rejected_before_automation_witness :
    (∃ d, (browser_tool_handler cfgBare envRaising reqBogus).1 = .error ⟨400, d⟩) ∧
      (browser_tool_handler cfgBare envRaising reqBogus).2.2 =
        [Ev.createTool, Ev.closeTool] :=
  invalid_request_rejected_before_automation cfgBare envRaising reqBogus rfl

/-- C2 as stated: with no structured search endpoint configured, the result
of `web_search` is what the spec's DOM-scrape fallback strategy
(`dom_fallback_search`) produces — navigate to a rendered results page, wait
up to 10 seconds for a result node, parse up to `maxResults` nodes, and
return the empty sequence when the wait times out. -/
def unconfiguredSearchUsesDomFallback : Prop :=
  ∀ (env : Env) (q : String) (n : Int) (t : BrowserTool) (llmFlag : Bool),
    (web_search { searxngUrl := none, llmConfigured := llmFlag } env q n t).1 =
      dom_fallback_search env q n

/-- A concrete environment refuting C2 as stated: no result node ever
appears in the DOM (the fallback's wait would time out, forcing `[]`), yet
the structured endpoint the code actually contacts answers 200 with one
parsable result. -/
def envJsonNoDom : Env :=
  { goto := fun _ => .response 200 (.pre (some ⟨[⟨"T", "http://u", "S"⟩]⟩))
    selectorAppears := fun _ _ => false
    visibleText := ""
    llmGen := fun _ _ => .raised "llama error"
    domWait := false
    domNodes := [] }

/-- Counterexample to C2 as stated: in `envJsonNoDom` with no endpoint
configured, the code returns the one structured JSON result while the
DOM-scrape fallback strategy would return `[]`. -/
theorem unconfigured_search_dom_fallback_counterexample :
    ¬ unconfiguredSearchUsesDomFallback := by
  intro h
  have h2 := h envJsonNoDom "q" 10 (BrowserTool.init cfgBare) false
  have hl : (web_search { searxngUrl := none, llmConfigured := false } envJsonNoDom
      "q" 10 (BrowserTool.init cfgBare)).1 = [⟨"T", "http://u", "S"⟩] := rfl
  have hr : dom_fallback_search envJsonNoDom "q" 10 = [] := rfl
  rw [hl, hr] at h2
  exact List.cons_ne_nil _ _ h2

/-- C2 amended: the code has no DOM-scrape fallback.  When no structured
search endpoint is configured, `web_search` falls back to the default
service address `http://192.168.77.8:8888` and still runs the structured
JSON strategy: its behaviour — result, session state and trace — is
identical, for every environment, query, bound and session state, to a
configuration with the default address set explicitly. -/
theorem unconfigured_search_uses_default_structured_endpoint (env : Env)
    (q : String) (n : Int) (t : BrowserTool) (llmFlag : Bool) :
    web_search { searxngUrl := none, llmConfigured := llmFlag } env q n t =
      web_search
        { searxngUrl := some "http://192.168.77.8:8888", llmConfigured := llmFlag }
        env q n t := rfl

/-! ## Whitespace-normalization lemmas (C9) -/

/-- Scanning a whole non-space word just moves it, reversed, onto the
accumulator. -/
theorem splitWordsAux_word (w : List Char) (hw : ∀ c ∈ w, isPySpace c = false) :
    ∀ cs acc : List Char,
      splitWordsAux (w ++ cs) acc = splitWordsAux cs (w.reverse ++ acc) := by
  induction w with
  | nil => intro cs acc; simp
  | cons c w ih =>
    intro cs acc
    have hc : isPySpace c = false := hw c (List.mem_cons_self c w)
    have hw' : ∀ x ∈ w, isPySpace x = false := fun x hx => hw x (List.mem_cons_of_mem c hx)
    rw [List.cons_append]
    simp only [splitWordsAux, hc]
    rw [ih hw' cs (c :: acc)]
    simp [List.append_assoc]

/-- A space after a non-empty accumulated word emits that word. -/
theorem splitWordsAux_space_cons (cs acc : List Char) (h : acc ≠ []) :
    splitWordsAux (' ' :: cs) acc = acc.reverse :: splitWordsAux cs [] := by
  simp [splitWordsAux, isPySpace, h]

/-- Splitting the single-space join of non-empty, space-free words recovers
exactly those words. -/
theorem splitWords_joinWords (ws : List (List Char))
    (hws : ∀ w ∈ ws, w ≠ [] ∧ ∀ c ∈ w, isPySpace c = false) :
    splitWordsAux (joinWords ws) [] = ws := by
  induction ws with
  | nil => rfl
  | cons w ws ih =>
    obtain ⟨hw, hwc⟩ := hws w (List.mem_cons_self w ws)
    have hws' : ∀ v ∈ ws, v ≠ [] ∧ ∀ c ∈ v, isPySpace c = false :=
      fun v hv => hws v (List.mem_cons_of_mem w hv)
    cases ws with
    | nil =>
      show splitWordsAux w [] = [w]
      have hword := splitWordsAux_word w hwc [] []
      rw [List.append_nil] at hword
      rw [hword]
      simp [splitWordsAux, hw]
    | cons w2 ws2 =>
      show splitWordsAux (w ++ ' ' :: joinWords (w2 :: ws2)) [] = w :: w2 :: ws2
      rw [splitWordsAux_word w hwc _ [], List.append_nil,
        splitWordsAux_space_cons _ _ (by simp [hw]), List.reverse_reverse,
        ih hws']

/-- Every word `splitWordsAux` produces is non-empty and space-free, given a
space-free accumulator. -/
theorem splitWordsAux_wf (l : List Char) :
    ∀ acc : List Char, (∀ c ∈ acc, isPySpace c = false) →
      ∀ w ∈ splitWordsAux l acc, w ≠ [] ∧ ∀ c ∈ w, isPySpace c = false := by
  induction l with
  | nil =>
    intro acc hacc w hw
    by_cases h : acc = []
    · subst h; simp [splitWordsAux] at hw
    · simp only [splitWordsAux, if_neg h, List.mem_singleton] at hw
      subst hw
      refine ⟨by simp [h], ?_⟩
      intro c hc
      exact hacc c (List.mem_reverse.mp hc)
  | cons c cs ih =>
    intro acc hacc w hw
    simp only [splitWordsAux] at hw
    cases hc : isPySpace c
    · rw [hc, if_neg Bool.false_ne_true] at hw
      refine ih (c :: acc) ?_ w hw
      intro x hx
      rcases List.mem_cons.mp hx with h1 | h2
      · subst h1; exact hc
      · exact hacc x h2
    · rw [hc, if_pos rfl] at hw
      by_cases h : acc = []
      · rw [if_pos h] at hw
        exact ih [] (by simp) w hw
      · rw [if_neg h] at hw
        rcases List.mem_cons.mp hw with h1 | h2
        · subst h1
          refine ⟨by simp [h], ?_⟩
          intro x hx
          exact hacc x (List.mem_reverse.mp hx)
        · exact ih [] (by simp) w h2

/-- C9: the whitespace normalization `' '.join(text.split())` applied by
`extract_content` (line 110) is idempotent — normalizing an
already-normalized string yields the identical string. -/
theorem extract_normalize_idempotent (s : String) :
    extract_normalize (extract_normalize s) = extract_normalize s := by
  have h : pySplit (extract_normalize s) = pySplit s :=
    splitWords_joinWords (splitWordsAux s.data [])
      (splitWordsAux_wf s.data [] (by simp))
  show String.mk (joinWords (pySplit (extract_normalize s))) = extract_normalize s
  rw [h]
  rfl

end BT
